import Mathlib

/-!
Verification of the MCP (Model Context Protocol) rust-sdk core against its
specification.  The Rust sources are shallowly embedded: pure functions become
Lean functions, stateful code becomes explicit state passing, JSON values are
an inductive type, and fallible operations return `Except` / `Option`.
-/

set_option maxRecDepth 8192

namespace McpSpec

/-- A JSON value, as used for opaque `serde_json::Value` payloads.  Numbers are
modelled as integers, which covers every numeric field the protocol layer
inspects (u64 ids and i32 codes); payload values are carried opaquely. -/
inductive Json where
  | null : Json
  | bool (b : Bool) : Json
  | num (n : Int) : Json
  | str (s : String) : Json
  | arr (elems : List Json) : Json
  | obj (fields : List (String × Json)) : Json

/-- Field lookup in a JSON object (`serde_json::Map` access). -/
def Json.getField : Json → String → Option Json
  | .obj fields, name => fields.lookup name
  | _, _ => none

/-- Whether the value is a JSON object. -/
def Json.isObject : Json → Bool
  | .obj _ => true
  | _ => false

/-- Error information for JSON-RPC error responses (`ErrorData` in
protocol.rs): code, message, and optional data. -/
structure ErrorData where
  code : Int
  message : String
  data : Option Json

/-- JSON-RPC request (`JsonRpcRequest` in protocol.rs). -/
structure JsonRpcRequest where
  jsonrpc : String
  id : Option Nat
  method : String
  params : Option Json

/-- JSON-RPC response (`JsonRpcResponse` in protocol.rs). -/
structure JsonRpcResponse where
  jsonrpc : String
  id : Option Nat
  result : Option Json
  error : Option ErrorData

/-- JSON-RPC notification (`JsonRpcNotification` in protocol.rs). -/
structure JsonRpcNotification where
  jsonrpc : String
  method : String
  params : Option Json

/-- JSON-RPC error message (`JsonRpcError` in protocol.rs). -/
structure JsonRpcError where
  jsonrpc : String
  id : Option Nat
  error : ErrorData

/-- The JSON-RPC message sum type (`JsonRpcMessage` in protocol.rs): request,
response, notification, error, or the local-only nil sentinel. -/
inductive JsonRpcMessage where
  | request (r : JsonRpcRequest) : JsonRpcMessage
  | response (r : JsonRpcResponse) : JsonRpcMessage
  | notification (n : JsonRpcNotification) : JsonRpcMessage
  | error (e : JsonRpcError) : JsonRpcMessage
  | nil : JsonRpcMessage

/-- The raw deserialization target (`JsonRpcRaw` in protocol.rs): all fields
optional except the version string. -/
structure JsonRpcRaw where
  jsonrpc : String
  id : Option Nat
  method : Option String
  params : Option Json
  result : Option Json
  error : Option ErrorData

/-- Rendering of an `Option` for the rejection message (Rust `{:?}`
formatting, abbreviated). -/
def optionDebug {α : Type} (render : α → String) : Option α → String
  | none => "None"
  | some a => "Some(" ++ render a ++ ")"

/-- The rejection message built by `TryFrom<JsonRpcRaw>` when no shape
matches. -/
def invalidFormatMessage (raw : JsonRpcRaw) : String :=
  "Invalid JSON-RPC message format: id=" ++ optionDebug (fun n => toString n) raw.id
    ++ ", method=" ++ optionDebug (fun s => s) raw.method

/-- The shape discriminator: `TryFrom<JsonRpcRaw> for JsonRpcMessage`
(protocol.rs lines 79-131).  Tests, in order: error present, result present,
method present (id absent means notification, id present means request), and
finally the all-absent nil case; anything else is rejected. -/
def tryFromRaw (raw : JsonRpcRaw) : Except String JsonRpcMessage :=
  match raw.error with
  | some e =>
    .ok (.error { jsonrpc := raw.jsonrpc, id := raw.id, error := e })
  | none =>
    match raw.result with
    | some r =>
      .ok (.response { jsonrpc := raw.jsonrpc, id := raw.id, result := some r, error := none })
    | none =>
      match raw.method with
      | some m =>
        if raw.id.isNone then
          .ok (.notification { jsonrpc := raw.jsonrpc, method := m, params := raw.params })
        else
          .ok (.request { jsonrpc := raw.jsonrpc, id := raw.id, method := m, params := raw.params })
      | none =>
        if raw.id.isNone && raw.result.isNone && raw.error.isNone then
          .ok .nil
        else
          .error (invalidFormatMessage raw)

/-- Classifier written from the specification words: the shape is inferred
from field presence in the stated priority order, every other combination
being a protocol error (`none`). -/
def specClassify (raw : JsonRpcRaw) : Option JsonRpcMessage :=
  match raw.error, raw.result, raw.method, raw.id with
  | some e, _, _, _ =>
    some (.error { jsonrpc := raw.jsonrpc, id := raw.id, error := e })
  | none, some r, _, _ =>
    some (.response { jsonrpc := raw.jsonrpc, id := raw.id, result := some r, error := none })
  | none, none, some m, some i =>
    some (.request { jsonrpc := raw.jsonrpc, id := some i, method := m, params := raw.params })
  | none, none, some m, none =>
    some (.notification { jsonrpc := raw.jsonrpc, method := m, params := raw.params })
  | none, none, none, none => some .nil
  | none, none, none, some _ => none

/-- C1: the wire-message deserializer classifies a raw JSON-RPC object solely
by field presence, in the order error, result, method+id (request),
method-without-id (notification), all-absent (nil); every other combination
(id present with no method, result, or error) is rejected. -/
theorem c1_discriminator_matches_spec (raw : JsonRpcRaw) :
    (tryFromRaw raw).toOption = specClassify raw := by
  rcases raw with ⟨jrpc, id, method, params, result, error⟩
  cases error <;> cases result <;> cases method <;> cases id <;>
    simp [tryFromRaw, specClassify, Except.toOption, Option.isNone]

/-- Serde serialization of an optional field with
`skip_serializing_if = Option::is_none`: absent fields are omitted. -/
def optEntry (name : String) : Option Json → List (String × Json)
  | none => []
  | some j => [(name, j)]

/-- Serialization of `ErrorData` (serde derive, field order code, message,
data; data skipped when absent). -/
def ErrorData.toJson (e : ErrorData) : Json :=
  .obj ([("code", .num e.code), ("message", .str e.message)] ++ optEntry "data" e.data)

/-- Serialization of `JsonRpcRequest` (serde derive; id and params skipped
when absent). -/
def JsonRpcRequest.toJson (r : JsonRpcRequest) : Json :=
  .obj ([("jsonrpc", .str r.jsonrpc)]
    ++ optEntry "id" (r.id.map fun n => Json.num (n : Int))
    ++ [("method", .str r.method)]
    ++ optEntry "params" r.params)

/-- Serialization of `JsonRpcResponse` (serde derive; id, result, error all
skipped when absent). -/
def JsonRpcResponse.toJson (r : JsonRpcResponse) : Json :=
  .obj ([("jsonrpc", .str r.jsonrpc)]
    ++ optEntry "id" (r.id.map fun n => Json.num (n : Int))
    ++ optEntry "result" r.result
    ++ optEntry "error" (r.error.map ErrorData.toJson))

/-- Serialization of `JsonRpcNotification` (serde derive; params skipped when
absent). -/
def JsonRpcNotification.toJson (n : JsonRpcNotification) : Json :=
  .obj ([("jsonrpc", .str n.jsonrpc), ("method", .str n.method)] ++ optEntry "params" n.params)

/-- Serialization of `JsonRpcError` (serde derive; id skipped when absent,
error always present). -/
def JsonRpcError.toJson (e : JsonRpcError) : Json :=
  .obj ([("jsonrpc", .str e.jsonrpc)]
    ++ optEntry "id" (e.id.map fun n => Json.num (n : Int))
    ++ [("error", e.error.toJson)])

/-- Serialization of `JsonRpcMessage`: `#[serde(untagged)]`, so each variant
serializes as its payload; the unit variant `Nil` serializes as JSON null. -/
def serializeMessage : JsonRpcMessage → Json
  | .request r => r.toJson
  | .response r => r.toJson
  | .notification n => n.toJson
  | .error e => e.toJson
  | .nil => .null

/-- Exclusive upper bound of Rust u64. -/
def u64Size : Nat := 2 ^ 64

/-- Exclusive upper bound (and negated lower bound) of Rust i32. -/
def i32Bound : Int := 2 ^ 31

/-- Serde deserialization of an `Option<u64>` field: absent or null gives
none, a non-negative integer within u64 range gives some, anything else is a
type error. -/
def decodeOptU64 : Option Json → Except String (Option Nat)
  | none => .ok none
  | some .null => .ok none
  | some (.num n) =>
    if 0 ≤ n ∧ n < (u64Size : Int) then .ok (some n.toNat)
    else .error "invalid value: out of range for u64"
  | some _ => .error "invalid type: expected u64"

/-- Serde deserialization of an `Option<String>` field. -/
def decodeOptString : Option Json → Except String (Option String)
  | none => .ok none
  | some .null => .ok none
  | some (.str s) => .ok (some s)
  | some _ => .error "invalid type: expected string"

/-- Serde deserialization of an `Option<serde_json::Value>` field: absent or
null gives none, any other value is kept. -/
def decodeOptValue : Option Json → Except String (Option Json)
  | none => .ok none
  | some .null => .ok none
  | some j => .ok (some j)

/-- Serde deserialization of `ErrorData` from its three looked-up fields:
requires an i32 code and a string message; data is optional. -/
def errorDataFromFields (codeF messageF dataF : Option Json) : Except String ErrorData := do
  let code ← match codeF with
    | some (.num n) =>
      if -i32Bound ≤ n ∧ n < i32Bound then Except.ok n
      else Except.error "invalid value: out of range for i32"
    | some _ => Except.error "invalid type: expected i32 code"
    | none => Except.error "missing field code"
  let message ← match messageF with
    | some (.str s) => Except.ok s
    | some _ => Except.error "invalid type: expected string message"
    | none => Except.error "missing field message"
  let data ← decodeOptValue dataF
  return { code := code, message := message, data := data }

/-- Serde deserialization of `ErrorData`: requires an object with an i32
code and a string message; data is optional. -/
def ErrorData.fromJson (j : Json) : Except String ErrorData :=
  if !j.isObject then .error "invalid type: expected struct ErrorData"
  else errorDataFromFields (j.getField "code") (j.getField "message") (j.getField "data")

/-- Serde deserialization of an `Option<ErrorData>` field: absent or null
gives none, otherwise the value must parse as `ErrorData`. -/
def decodeOptErrorData : Option Json → Except String (Option ErrorData)
  | none => .ok none
  | some .null => .ok none
  | some ej => (ErrorData.fromJson ej).map some

/-- Serde deserialization of `JsonRpcRaw` from its six looked-up fields: the
`jsonrpc` string is required, all other fields are optional. -/
def rawFromFields (jsonrpcF idF methodF paramsF resultF errorF : Option Json) :
    Except String JsonRpcRaw := do
  let jsonrpc ← match jsonrpcF with
    | some (.str s) => Except.ok s
    | some _ => Except.error "invalid type: expected string jsonrpc"
    | none => Except.error "missing field jsonrpc"
  let id ← decodeOptU64 idF
  let method ← decodeOptString methodF
  let params ← decodeOptValue paramsF
  let result ← decodeOptValue resultF
  let error ← decodeOptErrorData errorF
  return { jsonrpc := jsonrpc, id := id, method := method, params := params,
           result := result, error := error }

/-- Serde deserialization of `JsonRpcRaw`: an object whose `jsonrpc` string
is required and whose other fields are optional.  (The repository serializer
never emits duplicate keys, so first-key lookup is adequate.) -/
def rawFromJson (j : Json) : Except String JsonRpcRaw :=
  if !j.isObject then .error "invalid type: expected struct JsonRpcRaw"
  else rawFromFields (j.getField "jsonrpc") (j.getField "id") (j.getField "method")
    (j.getField "params") (j.getField "result") (j.getField "error")

/-- Deserialization of `JsonRpcMessage`:
`#[serde(try_from = "JsonRpcRaw")]`, so parse the raw struct, then apply the
shape discriminator. -/
def parseMessage (j : Json) : Except String JsonRpcMessage :=
  match rawFromJson j with
  | .error e => .error e
  | .ok raw => tryFromRaw raw

/-- Whether an optional payload is the literal JSON null (such a payload does
not survive serde round-tripping: `Some(Value::Null)` serializes to a null
field, which deserializes back to `None`). -/
def isSomeNull : Option Json → Bool
  | some .null => true
  | _ => false

/-- Whether an optional id fits in u64 (always true of values that came from
the Rust `Option<u64>` field). -/
def idInRange : Option Nat → Bool
  | none => true
  | some n => decide (n < u64Size)

/-- Whether an error code fits in i32 (always true of values that came from
the Rust `i32` field). -/
def codeInRange (c : Int) : Bool :=
  decide (-i32Bound ≤ c ∧ c < i32Bound)

/-- The messages whose shape survives the untagged serialization followed by
the field-presence discriminator: requests with an id, notifications, error
replies, and responses carrying a result and no inline error — with ids in
u64 range, codes in i32 range, and no optional payload equal to literal
null. -/
def wireSafe : JsonRpcMessage → Bool
  | .request r => r.id.isSome && idInRange r.id && !isSomeNull r.params
  | .response r =>
    idInRange r.id && r.result.isSome && !isSomeNull r.result && r.error.isNone
  | .notification n => !isSomeNull n.params
  | .error e => idInRange e.id && codeInRange e.error.code && !isSomeNull e.error.data
  | .nil => false

/-- Reduction of the u64 decoder on an in-range number. -/
theorem decodeOptU64_num {n : Nat} (h : n < u64Size) :
    decodeOptU64 (some (.num (n : Int))) = .ok (some n) := by
  have h0 : (0 : Int) ≤ (n : Int) := Int.natCast_nonneg n
  have h1 : ((n : Int)) < ((u64Size : Nat) : Int) := by omega
  simp [decodeOptU64, h0, h1]

/-- Reduction of the opaque-value decoder on a non-null optional payload. -/
theorem decodeOptValue_notNull {p : Option Json} (h : isSomeNull p = false) :
    decodeOptValue p = .ok p := by
  cases p with
  | none => rfl
  | some j => cases j <;> simp_all [isSomeNull, decodeOptValue]

/-- Reduction of the field-level `ErrorData` decoder on well-typed fields. -/
theorem errorDataFromFields_ok (code : Int) (message : String)
    (dataF data : Option Json)
    (hc : -i32Bound ≤ code ∧ code < i32Bound)
    (hd : decodeOptValue dataF = .ok data) :
    errorDataFromFields (some (.num code)) (some (.str message)) dataF =
      .ok ⟨code, message, data⟩ := by
  simp [errorDataFromFields, hc.1, hc.2, hd, bind, Except.bind, pure, Except.pure]

/-- Reduction of the field-level `JsonRpcRaw` decoder when each field decoder
succeeds. -/
theorem rawFromFields_ok (jrpc : String) (idF : Option Json) (id : Option Nat)
    (methodF : Option Json) (method : Option String)
    (paramsF params resultF result errorF : Option Json) (error : Option ErrorData)
    (hid : decodeOptU64 idF = .ok id)
    (hm : decodeOptString methodF = .ok method)
    (hp : decodeOptValue paramsF = .ok params)
    (hr : decodeOptValue resultF = .ok result)
    (he : decodeOptErrorData errorF = .ok error) :
    rawFromFields (some (.str jrpc)) idF methodF paramsF resultF errorF =
      .ok ⟨jrpc, id, method, params, result, error⟩ := by
  simp [rawFromFields, hid, hm, hp, hr, he, bind, Except.bind, pure, Except.pure]

/-- Unfolding lemma for `parseMessage` that keeps the raw parse unevaluated. -/
theorem parseMessage_eq (j : Json) :
    parseMessage j =
      (match rawFromJson j with
        | .error e => Except.error e
        | .ok raw => tryFromRaw raw) := rfl

/-- Round-trip for a serialized `ErrorData` whose code is in i32 range and
whose data payload is not literal null. -/
theorem errorData_roundtrip (code : Int) (message : String) (data : Option Json)
    (hc : -i32Bound ≤ code ∧ code < i32Bound)
    (hdata : isSomeNull data = false) :
    decodeOptErrorData (some (ErrorData.toJson ⟨code, message, data⟩)) =
      .ok (some ⟨code, message, data⟩) := by
  have hd := decodeOptValue_notNull hdata
  cases data with
  | none =>
    have h2 : decodeOptErrorData (some (ErrorData.toJson ⟨code, message, none⟩)) =
        (errorDataFromFields (some (.num code)) (some (.str message)) none).map some := rfl
    rw [h2, errorDataFromFields_ok code message none none hc rfl]
    rfl
  | some d =>
    have h2 : decodeOptErrorData (some (ErrorData.toJson ⟨code, message, some d⟩)) =
        (errorDataFromFields (some (.num code)) (some (.str message)) (some d)).map some := rfl
    rw [h2, errorDataFromFields_ok code message (some d) (some d) hc hd]
    rfl

/-- Round-trip for a request carrying an id. -/
theorem request_roundtrip (jrpc method : String) (n : Nat) (params : Option Json)
    (hn : n < u64Size) (hp : isSomeNull params = false) :
    parseMessage (serializeMessage (.request ⟨jrpc, some n, method, params⟩)) =
      .ok (.request ⟨jrpc, some n, method, params⟩) := by
  have hd := decodeOptValue_notNull hp
  cases params with
  | none =>
    rw [show serializeMessage (.request ⟨jrpc, some n, method, none⟩) =
        Json.obj [("jsonrpc", .str jrpc), ("id", .num (n : Int)), ("method", .str method)]
        from rfl,
      parseMessage_eq,
      show rawFromJson (Json.obj [("jsonrpc", .str jrpc), ("id", .num (n : Int)),
          ("method", .str method)]) =
        rawFromFields (some (.str jrpc)) (some (.num (n : Int))) (some (.str method))
          none none none from rfl,
      rawFromFields_ok jrpc _ (some n) (some (.str method)) (some method) none none
        none none none none (decodeOptU64_num hn) rfl rfl rfl rfl]
    rfl
  | some p =>
    rw [show serializeMessage (.request ⟨jrpc, some n, method, some p⟩) =
        Json.obj [("jsonrpc", .str jrpc), ("id", .num (n : Int)), ("method", .str method),
          ("params", p)] from rfl,
      parseMessage_eq,
      show rawFromJson (Json.obj [("jsonrpc", .str jrpc), ("id", .num (n : Int)),
          ("method", .str method), ("params", p)]) =
        rawFromFields (some (.str jrpc)) (some (.num (n : Int))) (some (.str method))
          (some p) none none from rfl,
      rawFromFields_ok jrpc _ (some n) (some (.str method)) (some method) (some p) (some p)
        none none none none (decodeOptU64_num hn) rfl hd rfl rfl]
    rfl

/-- Round-trip for a notification. -/
theorem notification_roundtrip (jrpc method : String) (params : Option Json)
    (hp : isSomeNull params = false) :
    parseMessage (serializeMessage (.notification ⟨jrpc, method, params⟩)) =
      .ok (.notification ⟨jrpc, method, params⟩) := by
  have hd := decodeOptValue_notNull hp
  cases params with
  | none =>
    rw [show serializeMessage (.notification ⟨jrpc, method, none⟩) =
        Json.obj [("jsonrpc", .str jrpc), ("method", .str method)] from rfl,
      parseMessage_eq,
      show rawFromJson (Json.obj [("jsonrpc", .str jrpc), ("method", .str method)]) =
        rawFromFields (some (.str jrpc)) none (some (.str method)) none none none from rfl,
      rawFromFields_ok jrpc none none (some (.str method)) (some method) none none
        none none none none rfl rfl rfl rfl rfl]
    rfl
  | some p =>
    rw [show serializeMessage (.notification ⟨jrpc, method, some p⟩) =
        Json.obj [("jsonrpc", .str jrpc), ("method", .str method), ("params", p)] from rfl,
      parseMessage_eq,
      show rawFromJson (Json.obj [("jsonrpc", .str jrpc), ("method", .str method),
          ("params", p)]) =
        rawFromFields (some (.str jrpc)) none (some (.str method)) (some p) none none
        from rfl,
      rawFromFields_ok jrpc none none (some (.str method)) (some method) (some p) (some p)
        none none none none rfl rfl hd rfl rfl]
    rfl

/-- Round-trip for a response carrying a result and no inline error. -/
theorem response_roundtrip (jrpc : String) (id : Option Nat) (res : Json)
    (hid : idInRange id = true) (hres : isSomeNull (some res) = false) :
    parseMessage (serializeMessage (.response ⟨jrpc, id, some res, none⟩)) =
      .ok (.response ⟨jrpc, id, some res, none⟩) := by
  have hd := decodeOptValue_notNull hres
  cases id with
  | none =>
    rw [show serializeMessage (.response ⟨jrpc, none, some res, none⟩) =
        Json.obj [("jsonrpc", .str jrpc), ("result", res)] from rfl,
      parseMessage_eq,
      show rawFromJson (Json.obj [("jsonrpc", .str jrpc), ("result", res)]) =
        rawFromFields (some (.str jrpc)) none none none (some res) none from rfl,
      rawFromFields_ok jrpc none none none none none none (some res) (some res)
        none none rfl rfl rfl hd rfl]
    rfl
  | some n =>
    have hn : n < u64Size := by simpa [idInRange] using hid
    rw [show serializeMessage (.response ⟨jrpc, some n, some res, none⟩) =
        Json.obj [("jsonrpc", .str jrpc), ("id", .num (n : Int)), ("result", res)] from rfl,
      parseMessage_eq,
      show rawFromJson (Json.obj [("jsonrpc", .str jrpc), ("id", .num (n : Int)),
          ("result", res)]) =
        rawFromFields (some (.str jrpc)) (some (.num (n : Int))) none none (some res) none
        from rfl,
      rawFromFields_ok jrpc _ (some n) none none none none (some res) (some res)
        none none (decodeOptU64_num hn) rfl rfl hd rfl]
    rfl

/-- Round-trip for an error reply. -/
theorem error_roundtrip (jrpc : String) (id : Option Nat) (code : Int)
    (message : String) (data : Option Json)
    (hid : idInRange id = true)
    (hc : -i32Bound ≤ code ∧ code < i32Bound)
    (hdata : isSomeNull data = false) :
    parseMessage (serializeMessage (.error ⟨jrpc, id, ⟨code, message, data⟩⟩)) =
      .ok (.error ⟨jrpc, id, ⟨code, message, data⟩⟩) := by
  have he := errorData_roundtrip code message data hc hdata
  cases id with
  | none =>
    rw [show serializeMessage (.error ⟨jrpc, none, ⟨code, message, data⟩⟩) =
        Json.obj [("jsonrpc", .str jrpc),
          ("error", ErrorData.toJson ⟨code, message, data⟩)] from rfl,
      parseMessage_eq,
      show rawFromJson (Json.obj [("jsonrpc", .str jrpc),
          ("error", ErrorData.toJson ⟨code, message, data⟩)]) =
        rawFromFields (some (.str jrpc)) none none none none
          (some (ErrorData.toJson ⟨code, message, data⟩)) from rfl,
      rawFromFields_ok jrpc none none none none none none none none
        (some (ErrorData.toJson ⟨code, message, data⟩)) (some ⟨code, message, data⟩)
        rfl rfl rfl rfl he]
    rfl
  | some n =>
    have hn : n < u64Size := by simpa [idInRange] using hid
    rw [show serializeMessage (.error ⟨jrpc, some n, ⟨code, message, data⟩⟩) =
        Json.obj [("jsonrpc", .str jrpc), ("id", .num (n : Int)),
          ("error", ErrorData.toJson ⟨code, message, data⟩)] from rfl,
      parseMessage_eq,
      show rawFromJson (Json.obj [("jsonrpc", .str jrpc), ("id", .num (n : Int)),
          ("error", ErrorData.toJson ⟨code, message, data⟩)]) =
        rawFromFields (some (.str jrpc)) (some (.num (n : Int))) none none none
          (some (ErrorData.toJson ⟨code, message, data⟩)) from rfl,
      rawFromFields_ok jrpc _ (some n) none none none none none none
        (some (ErrorData.toJson ⟨code, message, data⟩)) (some ⟨code, message, data⟩)
        (decodeOptU64_num hn) rfl rfl rfl he]
    rfl

/-- C2 counterexample: a Request whose id is absent does not round-trip — its
serialization carries a method and no id, so the discriminator returns a
Notification, not the original Request. -/
theorem c2_roundtrip_counterexample :
    parseMessage (serializeMessage
        (.request { jsonrpc := "2.0", id := none, method := "ping", params := none })) ≠
      Except.ok
        (JsonRpcMessage.request { jsonrpc := "2.0", id := none, method := "ping", params := none }) := by
  intro h
  have heval : parseMessage (serializeMessage
      (.request { jsonrpc := "2.0", id := none, method := "ping", params := none })) =
      Except.ok (JsonRpcMessage.notification
        { jsonrpc := "2.0", method := "ping", params := none }) := by rfl
  rw [heval] at h
  injection h with h2
  injection h2

/-- C2 (amended): round-tripping holds exactly on the wire-safe fragment —
for every request with an id present, notification, error reply, and response
with a result and no inline error (ids within u64, codes within i32, optional
payloads not literal null), parsing the serialization returns the original
message. -/
theorem c2_roundtrip_wireSafe (m : JsonRpcMessage) (h : wireSafe m = true) :
    parseMessage (serializeMessage m) = .ok m := by
  cases m with
  | request r =>
    rcases r with ⟨jrpc, id, method, params⟩
    cases id with
    | none => simp [wireSafe] at h
    | some n =>
      simp only [wireSafe, idInRange, Option.isSome_some, Bool.true_and,
        Bool.and_eq_true, decide_eq_true_eq, Bool.not_eq_true'] at h
      exact request_roundtrip jrpc method n params h.1 h.2
  | response r =>
    rcases r with ⟨jrpc, id, result, error⟩
    simp only [wireSafe, Bool.and_eq_true, Bool.not_eq_true', Option.isSome_iff_exists,
      Option.isNone_iff_eq_none] at h
    obtain ⟨⟨⟨hid, ⟨res, hres⟩⟩, hnull⟩, herr⟩ := h
    subst hres herr
    exact response_roundtrip jrpc id res hid hnull
  | notification n =>
    rcases n with ⟨jrpc, method, params⟩
    simp only [wireSafe, Bool.not_eq_true'] at h
    exact notification_roundtrip jrpc method params h
  | error e =>
    rcases e with ⟨jrpc, id, ⟨code, message, data⟩⟩
    simp only [wireSafe, codeInRange, Bool.and_eq_true, decide_eq_true_eq,
      Bool.not_eq_true'] at h
    exact error_roundtrip jrpc id code message data h.1.1 h.1.2 h.2
  | nil => simp [wireSafe] at h

/-- C2 witness: a concrete wire-safe request round-trips. -/
theorem c2_roundtrip_wireSafe_witness :
    wireSafe (.request { jsonrpc := "2.0", id := some 1, method := "ping", params := none }) = true
    ∧ parseMessage (serializeMessage
        (.request { jsonrpc := "2.0", id := some 1, method := "ping", params := none })) =
      .ok (.request { jsonrpc := "2.0", id := some 1, method := "ping", params := none }) :=
  ⟨by decide, c2_roundtrip_wireSafe _ (by decide)⟩

/-- Role of content origin (role.rs). -/
inductive Role where
  | user : Role
  | assistant : Role
deriving DecidableEq

/-- Content annotations (content.rs): optional audience, priority, timestamp.
The f32 priority is modelled as an exact rational; the chrono timestamp is
modelled as its opaque RFC3339 rendering. -/
structure Annotations where
  audience : Option (List Role)
  priority : Option Rat
  timestamp : Option String

/-- A resource exposed by a server (resource.rs). -/
structure Resource where
  uri : String
  name : String
  description : Option String
  mime_type : String
  annotations : Option Annotations

/-- Contents of a read resource (resource.rs). -/
inductive ResourceContents where
  | textResourceContents (uri : String) (mime_type : Option String) (text : String)
  | blobResourceContents (uri : String) (mime_type : Option String) (blob : String)

/-- Text content (content.rs). -/
structure TextContent where
  text : String
  annotations : Option Annotations

/-- Image content (content.rs). -/
structure ImageContent where
  data : String
  mime_type : String
  annotations : Option Annotations

/-- Embedded resource content (content.rs). -/
structure EmbeddedResource where
  resource : ResourceContents
  annotations : Option Annotations

/-- Tool-call return content (content.rs). -/
inductive Content where
  | text (t : TextContent)
  | image (i : ImageContent)
  | resource (r : EmbeddedResource)

/-- A tool advertised by a server (tool.rs). -/
structure Tool where
  name : String
  description : String
  input_schema : Json

/-- An argument of a prompt (prompt.rs). -/
structure PromptArgument where
  name : String
  description : Option String
  required : Option Bool

/-- A prompt advertised by a server (prompt.rs). -/
structure Prompt where
  name : String
  description : Option String
  arguments : Option (List PromptArgument)

/-- Role of a prompt-message sender (prompt.rs). -/
inductive PromptMessageRole where
  | user : PromptMessageRole
  | assistant : PromptMessageRole

/-- Content of a prompt message (prompt.rs). -/
inductive PromptMessageContent where
  | text (text : String)
  | image (image : ImageContent)
  | resource (resource : EmbeddedResource)

/-- A message of a prompt conversation (prompt.rs). -/
structure PromptMessage where
  role : PromptMessageRole
  content : PromptMessageContent

/-- Server and client implementation info (protocol.rs). -/
structure Implementation where
  name : String
  version : String

/-- Prompts capability descriptor (protocol.rs). -/
structure PromptsCapability where
  list_changed : Option Bool

/-- Resources capability descriptor (protocol.rs). -/
structure ResourcesCapability where
  subscribe : Option Bool
  list_changed : Option Bool

/-- Tools capability descriptor (protocol.rs). -/
structure ToolsCapability where
  list_changed : Option Bool

/-- Negotiated server capabilities (protocol.rs): presence of a sub-object
means the category is supported. -/
structure ServerCapabilities where
  prompts : Option PromptsCapability
  resources : Option ResourcesCapability
  tools : Option ToolsCapability

/-- Result of the initialize call (protocol.rs). -/
structure InitializeResult where
  protocol_version : String
  capabilities : ServerCapabilities
  server_info : Implementation
  instructions : Option String

/-- Result of resources/list (protocol.rs). -/
structure ListResourcesResult where
  resources : List Resource
  next_cursor : Option String

/-- Result of resources/read (protocol.rs). -/
structure ReadResourceResult where
  contents : List ResourceContents

/-- Result of tools/list (protocol.rs). -/
structure ListToolsResult where
  tools : List Tool
  next_cursor : Option String

/-- Result of tools/call (protocol.rs). -/
structure CallToolResult where
  content : List Content
  is_error : Option Bool

/-- Result of prompts/list (protocol.rs). -/
structure ListPromptsResult where
  prompts : List Prompt

/-- Result of prompts/get (protocol.rs). -/
structure GetPromptResult where
  description : Option String
  messages : List PromptMessage

/-- Standard JSON-RPC error code (protocol.rs line 135). -/
def PARSE_ERROR : Int := -32700

/-- Standard JSON-RPC error code (protocol.rs line 136). -/
def INVALID_REQUEST : Int := -32600

/-- Standard JSON-RPC error code (protocol.rs line 137). -/
def METHOD_NOT_FOUND : Int := -32601

/-- Standard JSON-RPC error code (protocol.rs line 138). -/
def INVALID_PARAMS : Int := -32602

/-- Standard JSON-RPC error code (protocol.rs line 139). -/
def INTERNAL_ERROR : Int := -32603

/-- Client-side error type (mcp-client client.rs `Error`); boxed payloads are
modelled as their messages. -/
inductive ClientError where
  | transport (msg : String)
  | rpcError (code : Int) (message : String)
  | serialization (msg : String)
  | unexpectedResponse (reason : String)
  | notInitialized
  | notReady
  | timeout
  | serverBoxError (msg : String)
  | mcpServerError (method server msg : String)

/-- Client facade state (client.rs `McpClient`): next-id counter and cached
server capabilities and info. -/
structure ClientState where
  nextId : Nat
  serverCapabilities : Option ServerCapabilities
  serverInfo : Option Implementation

/-- A fresh client (client.rs `McpClient::new`). -/
def clientNew : ClientState :=
  { nextId := 1, serverCapabilities := none, serverInfo := none }

/-- Reply handling inside `send_request` (client.rs lines 201-239):
`nextIdAfter` is the counter value after the `fetch_add`, so the id compared
against is `nextIdAfter - 1`.  Replies whose id differs produce
UnexpectedResponse; Error replies and inline errors become RpcError; a
Response without a result is UnexpectedResponse. -/
def handleReply (nextIdAfter : Nat) (reply : JsonRpcMessage) : Except ClientError Json :=
  match reply with
  | .response r =>
    if r.id ≠ some (nextIdAfter - 1) then
      .error (.unexpectedResponse "id mismatch for JsonRpcResponse")
    else
      match r.error with
      | some err => .error (.rpcError err.code err.message)
      | none =>
        match r.result with
        | some v => .ok v
        | none => .error (.unexpectedResponse "missing result")
  | .error e =>
    if e.id ≠ some (nextIdAfter - 1) then
      .error (.unexpectedResponse "id mismatch for JsonRpcError")
    else
      .error (.rpcError e.error.code e.error.message)
  | _ => .error (.unexpectedResponse "unexpected message type")

/-- One sequential `send_request` call (client.rs lines 172-240): allocate the
id from the counter, build the request, and process the transport reply. -/
def sendRequest (st : ClientState) (method : String) (params : Json)
    (reply : JsonRpcMessage) :
    Except ClientError Json × ClientState × JsonRpcRequest :=
  let id := st.nextId
  let st1 := { st with nextId := st.nextId + 1 }
  let request : JsonRpcRequest :=
    { jsonrpc := "2.0", id := some id, method := method, params := some params }
  (handleReply st1.nextId reply, st1, request)

/-- C4: for a request issued by the client facade, a Response or Error reply
whose id differs from the id just issued makes send_request return
UnexpectedResponse instead of a typed value or RpcError. -/
theorem c4_reply_id_checked (st : ClientState) (method : String) (params : Json)
    (r : JsonRpcResponse) (e : JsonRpcError)
    (hr : r.id ≠ some st.nextId) (he : e.id ≠ some st.nextId) :
    (sendRequest st method params (.response r)).1 =
      .error (.unexpectedResponse "id mismatch for JsonRpcResponse")
    ∧ (sendRequest st method params (.error e)).1 =
      .error (.unexpectedResponse "id mismatch for JsonRpcError") := by
  constructor <;> simp [sendRequest, handleReply, hr, he]

/-- C4 witness: a concrete reply with the wrong id yields UnexpectedResponse. -/
theorem c4_reply_id_checked_witness :
    (some 2 ≠ some (clientNew.nextId))
    ∧ (sendRequest clientNew "ping" (.obj [])
        (.response { jsonrpc := "2.0", id := some 2, result := some .null, error := none })).1 =
      .error (.unexpectedResponse "id mismatch for JsonRpcResponse") :=
  ⟨by decide,
    (c4_reply_id_checked clientNew "ping" (.obj [])
      { jsonrpc := "2.0", id := some 2, result := some .null, error := none }
      { jsonrpc := "2.0", id := some 2, error := ⟨0, "", none⟩ }
      (by decide) (by decide)).1⟩

/-- Outcome of the local (pre-wire) phase of a client operation: a locally
produced value, a locally produced error, or a wire request with the given
method and params.  A local outcome sends no wire message. -/
inductive ClientAction (α : Type) where
  | localOk (v : α)
  | localErr (e : ClientError)
  | wire (method : String) (params : Json)

/-- Cursor payload built by the list operations (client.rs):
`{"cursor": c}` when a cursor is given, `{}` otherwise. -/
def cursorPayload : Option String → Json
  | some c => .obj [("cursor", .str c)]
  | none => .obj []

/-- The list_resources operation up to its wire call (client.rs
lines 309-335): NotInitialized before initialize; a locally built empty list
when the resources capability is absent; otherwise a resources/list wire
request. -/
def listResources (st : ClientState) (cursor : Option String) :
    ClientAction ListResourcesResult :=
  match st.serverCapabilities with
  | none => .localErr .notInitialized
  | some caps =>
    if caps.resources.isNone then
      .localOk { resources := [], next_cursor := none }
    else
      .wire "resources/list" (cursorPayload cursor)

/-- The read_resource operation up to its wire call (client.rs
lines 338-358). -/
def readResource (st : ClientState) (uri : String) :
    ClientAction ReadResourceResult :=
  match st.serverCapabilities with
  | none => .localErr .notInitialized
  | some caps =>
    if caps.resources.isNone then
      .localErr (.rpcError METHOD_NOT_FOUND
        "Server does not support \x27resources\x27 capability")
    else
      .wire "resources/read" (.obj [("uri", .str uri)])

/-- The list_tools operation up to its wire call (client.rs lines 361-381). -/
def listTools (st : ClientState) (cursor : Option String) :
    ClientAction ListToolsResult :=
  match st.serverCapabilities with
  | none => .localErr .notInitialized
  | some caps =>
    if caps.tools.isNone then
      .localOk { tools := [], next_cursor := none }
    else
      .wire "tools/list" (cursorPayload cursor)

/-- The call_tool operation up to its wire call (client.rs lines 384-401). -/
def callTool (st : ClientState) (name : String) (arguments : Json) :
    ClientAction CallToolResult :=
  match st.serverCapabilities with
  | none => .localErr .notInitialized
  | some caps =>
    if caps.tools.isNone then
      .localErr (.rpcError METHOD_NOT_FOUND
        "Server does not support \x27tools\x27 capability")
    else
      .wire "tools/call" (.obj [("name", .str name), ("arguments", arguments)])

/-- The list_prompts operation up to its wire call (client.rs
lines 404-425): note the absent-capability branch returns a local RpcError,
not an empty list. -/
def listPrompts (st : ClientState) (cursor : Option String) :
    ClientAction ListPromptsResult :=
  match st.serverCapabilities with
  | none => .localErr .notInitialized
  | some caps =>
    if caps.prompts.isNone then
      .localErr (.rpcError METHOD_NOT_FOUND
        "Server does not support \x27prompts\x27 capability")
    else
      .wire "prompts/list" (cursorPayload cursor)

/-- The get_prompt operation up to its wire call (client.rs lines 428-444). -/
def getPrompt (st : ClientState) (name : String) (arguments : Json) :
    ClientAction GetPromptResult :=
  match st.serverCapabilities with
  | none => .localErr .notInitialized
  | some caps =>
    if caps.prompts.isNone then
      .localErr (.rpcError METHOD_NOT_FOUND
        "Server does not support \x27prompts\x27 capability")
    else
      .wire "prompts/get" (.obj [("name", .str name), ("arguments", arguments)])

/-- Concrete negotiated capabilities lacking prompts (tools and resources
present). -/
def capsNoPrompts : ServerCapabilities :=
  { prompts := none, resources := some ⟨none, none⟩, tools := some ⟨none⟩ }

/-- Concrete initialized client state whose capabilities lack prompts. -/
def stNoPrompts : ClientState :=
  { nextId := 2, serverCapabilities := some capsNoPrompts, serverInfo := some ⟨"s", "1"⟩ }

/-- C3 counterexample: on an initialized client whose negotiated capabilities
lack prompts, list_prompts does not return an empty list locally — it returns
a local METHOD_NOT_FOUND RpcError.  (The claim asserts an empty list for all
three list operations.) -/
theorem c3_counterexample :
    listPrompts stNoPrompts none =
      .localErr (.rpcError METHOD_NOT_FOUND
        "Server does not support \x27prompts\x27 capability")
    ∧ listPrompts stNoPrompts none ≠ ClientAction.localOk { prompts := [] } := by
  constructor
  · rfl
  · intro h
    rw [show listPrompts stNoPrompts none =
      .localErr (.rpcError METHOD_NOT_FOUND
        "Server does not support \x27prompts\x27 capability") from rfl] at h
    injection h

/-- C3 (amended): after initialization, for each server capability category
absent from the negotiated capabilities the corresponding operation is local
(no wire message): list_resources and list_tools return an empty list, while
read_resource, call_tool, list_prompts and get_prompt return a local RpcError
with code METHOD_NOT_FOUND. -/
theorem c3_capability_gating (st : ClientState) (caps : ServerCapabilities)
    (hst : st.serverCapabilities = some caps)
    (cursor : Option String) (uri name : String) (args : Json) :
    (caps.resources = none →
      listResources st cursor = .localOk { resources := [], next_cursor := none }
      ∧ readResource st uri = .localErr (.rpcError METHOD_NOT_FOUND
          "Server does not support \x27resources\x27 capability"))
    ∧ (caps.tools = none →
      listTools st cursor = .localOk { tools := [], next_cursor := none }
      ∧ callTool st name args = .localErr (.rpcError METHOD_NOT_FOUND
          "Server does not support \x27tools\x27 capability"))
    ∧ (caps.prompts = none →
      listPrompts st cursor = .localErr (.rpcError METHOD_NOT_FOUND
          "Server does not support \x27prompts\x27 capability")
      ∧ getPrompt st name args = .localErr (.rpcError METHOD_NOT_FOUND
          "Server does not support \x27prompts\x27 capability")) := by
  refine ⟨fun hres => ⟨?_, ?_⟩, fun htools => ⟨?_, ?_⟩, fun hprompts => ⟨?_, ?_⟩⟩ <;>
    simp_all [listResources, readResource, listTools, callTool, listPrompts, getPrompt]

/-- Concrete negotiated capabilities with every category absent. -/
def capsEmpty : ServerCapabilities :=
  { prompts := none, resources := none, tools := none }

/-- Concrete initialized client state with no negotiated capabilities. -/
def stCapsEmpty : ClientState :=
  { nextId := 2, serverCapabilities := some capsEmpty, serverInfo := some ⟨"s", "1"⟩ }

/-- C3 witness: a concrete initialized client with no negotiated capabilities
takes the local branches. -/
theorem c3_capability_gating_witness :
    stCapsEmpty.serverCapabilities = some capsEmpty
    ∧ listResources stCapsEmpty none = .localOk { resources := [], next_cursor := none }
    ∧ listPrompts stCapsEmpty none =
      .localErr (.rpcError METHOD_NOT_FOUND
        "Server does not support \x27prompts\x27 capability") :=
  ⟨rfl,
    ((c3_capability_gating stCapsEmpty capsEmpty rfl none "u" "n" (.obj [])).1 rfl).1,
    ((c3_capability_gating stCapsEmpty capsEmpty rfl none "u" "n" (.obj [])).2.2 rfl).1⟩

/-- Events observable during the initialize call, in program order. -/
inductive ClientEvent where
  | sendRequest (method : String)
  | sendNotification (method : String)
  | storeCapabilities
  | storeInfo
deriving DecidableEq

/-- The initialize operation of the client facade (client.rs lines 284-306):
send the initialize request; on success send the notifications/initialized
notification, then store capabilities, then store server info, then return
the result.  The request reply and the notification outcome are parameters
standing for the transport. -/
def clientInit (st : ClientState) (reply : Except ClientError InitializeResult)
    (notifResult : Except ClientError Unit) :
    Except ClientError InitializeResult × ClientState × List ClientEvent :=
  match reply with
  | .error e =>
    (.error e, { st with nextId := st.nextId + 1 }, [.sendRequest "initialize"])
  | .ok result =>
    let st1 := { st with nextId := st.nextId + 1 }
    match notifResult with
    | .error e =>
      (.error e, st1,
        [.sendRequest "initialize", .sendNotification "notifications/initialized"])
    | .ok _ =>
      let st2 := { st1 with serverCapabilities := some result.capabilities }
      let st3 := { st2 with serverInfo := some result.server_info }
      (.ok result, st3,
        [.sendRequest "initialize", .sendNotification "notifications/initialized",
         .storeCapabilities, .storeInfo])

/-- Concrete negotiated capabilities advertising only tools. -/
def capsToolsOnly : ServerCapabilities :=
  { prompts := none, resources := none, tools := some ⟨none⟩ }

/-- A concrete successful InitializeResult. -/
def initResultSample : InitializeResult :=
  { protocol_version := "1.0.0", capabilities := capsToolsOnly,
    server_info := ⟨"s", "1"⟩, instructions := none }

/-- C7 counterexample: in a successful initialize, the
notifications/initialized notification is sent before the capabilities are
stored — the first two events are the request and the notification, and the
store is not among them — contradicting the claimed store-then-notify order. -/
theorem c7_counterexample :
    (clientInit clientNew (.ok initResultSample) (.ok ())).2.2 =
      [.sendRequest "initialize", .sendNotification "notifications/initialized",
       .storeCapabilities, .storeInfo]
    ∧ (clientInit clientNew (.ok initResultSample) (.ok ())).2.2.take 2 =
      [.sendRequest "initialize", .sendNotification "notifications/initialized"]
    ∧ ClientEvent.storeCapabilities ∉
      (clientInit clientNew (.ok initResultSample) (.ok ())).2.2.take 2 := by
  refine ⟨rfl, rfl, ?_⟩
  decide

/-- C7 (amended): on a successful initialize the client sends the
notifications/initialized notification first and stores the server
capabilities and info afterwards; once initialize completes, the cached
capabilities and server info equal those returned by the server. -/
theorem c7_initialize_stores_after_notification (st : ClientState)
    (result : InitializeResult) :
    (clientInit st (.ok result) (.ok ())).1 = .ok result
    ∧ (clientInit st (.ok result) (.ok ())).2.1.serverCapabilities = some result.capabilities
    ∧ (clientInit st (.ok result) (.ok ())).2.1.serverInfo = some result.server_info
    ∧ (clientInit st (.ok result) (.ok ())).2.2 =
      [.sendRequest "initialize", .sendNotification "notifications/initialized",
       .storeCapabilities, .storeInfo] :=
  ⟨rfl, rfl, rfl, rfl⟩

/-- Server-side transport error (mcp-server errors.rs `TransportError`);
error payloads are modelled as their messages. -/
inductive TransportError where
  | io (msg : String)
  | json (msg : String)
  | utf8 (msg : String)
  | protocol (msg : String)
  | invalidMessage (msg : String)

/-- The thiserror display strings of `TransportError` (errors.rs). -/
def TransportError.render : TransportError → String
  | .io msg => "IO error: " ++ msg
  | .json msg => "JSON serialization error: " ++ msg
  | .utf8 msg => "Invalid UTF-8 sequence: " ++ msg
  | .protocol msg => "Protocol error: " ++ msg
  | .invalidMessage msg => "Invalid message format: " ++ msg

/-- The framer step of `ByteTransport::poll_next` (mcp-server lib.rs
lines 78-102) after UTF-8 decoding: the line either failed JSON parsing
(`none`) or produced a JSON value; non-objects and objects without a
`"jsonrpc": "2.0"` field are invalid messages; otherwise the message is
parsed by the shape discriminator. -/
def frameDecode (line : Option Json) : Except TransportError JsonRpcMessage :=
  match line with
  | none => .error (.json "expected value")
  | some value =>
    if !value.isObject then
      .error (.invalidMessage "Message must be a JSON object")
    else
      match value.getField "jsonrpc" with
      | some (.str v) =>
        if v = "2.0" then
          match parseMessage value with
          | .ok msg => .ok msg
          | .error e => .error (.json e)
        else
          .error (.invalidMessage "Missing or invalid jsonrpc version")
      | _ => .error (.invalidMessage "Missing or invalid jsonrpc version")

/-- Conversion of a framer error into the error body written by the dispatch
loop (mcp-server lib.rs lines 223-254): JSON and invalid-message errors map
to PARSE_ERROR, protocol errors to INVALID_REQUEST, the rest to
INTERNAL_ERROR. -/
def transportErrorData (e : TransportError) : ErrorData :=
  match e with
  | .json _ => ⟨PARSE_ERROR, e.render, none⟩
  | .invalidMessage _ => ⟨PARSE_ERROR, e.render, none⟩
  | .protocol _ => ⟨INVALID_REQUEST, e.render, none⟩
  | _ => ⟨INTERNAL_ERROR, e.render, none⟩

/-- A request handler (the tower service wrapped by `Server::run`); a
service-level failure carries its message. -/
def Handler : Type := JsonRpcRequest → Except String JsonRpcResponse

/-- Handling of one Request by the dispatch loop (lib.rs lines 165-213): call
the service; a service failure becomes a Response whose error body has code
INTERNAL_ERROR and the request id. -/
def serverHandleRequest (handler : Handler) (request : JsonRpcRequest) : JsonRpcMessage :=
  let response := match handler request with
    | .ok resp => resp
    | .error e =>
      { jsonrpc := "2.0", id := request.id, result := none,
        error := some ⟨INTERNAL_ERROR, e, none⟩ }
  .response response

/-- One iteration of the dispatch loop (lib.rs lines 159-256): a Request is
handled and answered; Responses, Notifications, Nil and Error messages are
ignored; a framer error is answered by a top-level Error message with a null
id and the mapped code.  The loop then continues with the next frame. -/
def serverStep (handler : Handler) (item : Except TransportError JsonRpcMessage) :
    Option JsonRpcMessage :=
  match item with
  | .ok (.request request) => some (serverHandleRequest handler request)
  | .ok _ => none
  | .error e => some (.error { jsonrpc := "2.0", id := none, error := transportErrorData e })

/-- The dispatch loop over a finite inbound stream: every frame is processed
in order and each produced reply is written. -/
def serverRun (handler : Handler) (items : List (Except TransportError JsonRpcMessage)) :
    List JsonRpcMessage :=
  items.filterMap (serverStep handler)

/-- The framer and dispatch loop combined, consuming raw lines (`none` is a
line that is not valid JSON). -/
def serverRunLines (handler : Handler) (lines : List (Option Json)) : List JsonRpcMessage :=
  serverRun handler (lines.map frameDecode)

/-- C5: an inbound frame that fails to parse as JSON makes the server write
an Error reply with code PARSE_ERROR and a null id, and the dispatch loop
continues processing the remaining frames. -/
theorem c5_parse_error_recovery (handler : Handler) (rest : List (Option Json)) :
    serverRunLines handler (none :: rest) =
      .error { jsonrpc := "2.0", id := none,
               error := ⟨PARSE_ERROR, "JSON serialization error: expected value", none⟩ } ::
        serverRunLines handler rest := by
  simp [serverRunLines, serverRun, frameDecode, serverStep, transportErrorData,
    TransportError.render]

/-- Handler-level tool error (mcp-core handler.rs `ToolError`). -/
inductive ToolError where
  | invalidParameters (msg : String)
  | executionError (msg : String)
  | schemaError (msg : String)
  | notFound (msg : String)

/-- Handler-level resource error (mcp-core handler.rs `ResourceError`). -/
inductive ResourceError where
  | executionError (msg : String)
  | notFound (msg : String)

/-- Handler-level prompt error (mcp-core handler.rs `PromptError`). -/
inductive PromptError where
  | invalidParameters (msg : String)
  | internalError (msg : String)
  | notFound (msg : String)

/-- Routing-level error (mcp-server errors.rs `RouterError`). -/
inductive RouterError where
  | methodNotFound (msg : String)
  | invalidParams (msg : String)
  | internal (msg : String)
  | toolNotFound (msg : String)
  | resourceNotFound (msg : String)
  | promptNotFound (msg : String)

/-- The error mapping `From<RouterError> for ErrorData` (errors.rs
lines 79-115). -/
def RouterError.toErrorData : RouterError → ErrorData
  | .methodNotFound msg => ⟨METHOD_NOT_FOUND, msg, none⟩
  | .invalidParams msg => ⟨INVALID_PARAMS, msg, none⟩
  | .internal msg => ⟨INTERNAL_ERROR, msg, none⟩
  | .toolNotFound msg => ⟨INVALID_REQUEST, msg, none⟩
  | .resourceNotFound msg => ⟨INVALID_REQUEST, msg, none⟩
  | .promptNotFound msg => ⟨INVALID_REQUEST, msg, none⟩

/-- The conversion `From<ResourceError> for RouterError` (errors.rs
lines 118-125): NotFound becomes ResourceNotFound, everything else an
internal error. -/
def ResourceError.toRouterError : ResourceError → RouterError
  | .notFound msg => .resourceNotFound msg
  | .executionError _ => .internal "Unknown resource error"

/-- Modelled from the spec: the router module (declared `pub mod router` in
mcp-server lib.rs) is not among the sources; its conversion of `ToolError`
into `RouterError` follows the spec error-mapping table — NotFound is an
unknown-entity violation, InvalidParameters an argument mismatch,
ExecutionError and SchemaError handler runtime failures. -/
def ToolError.toRouterError : ToolError → RouterError
  | .notFound msg => .toolNotFound msg
  | .invalidParameters msg => .invalidParams msg
  | .executionError msg => .internal msg
  | .schemaError msg => .internal msg

/-- Modelled from the spec: the router module (declared `pub mod router` in
mcp-server lib.rs) is not among the sources; its conversion of `PromptError`
into `RouterError` follows the spec error-mapping table — NotFound is an
unknown-entity violation, InvalidParameters an argument mismatch,
InternalError a handler runtime failure. -/
def PromptError.toRouterError : PromptError → RouterError
  | .notFound msg => .promptNotFound msg
  | .invalidParameters msg => .invalidParams msg
  | .internalError msg => .internal msg

/-- C6: the handler-failure-to-JSON-RPC mapping is exactly as documented:
all three NotFound failures map to INVALID_REQUEST, InvalidParameters maps to
INVALID_PARAMS, execution and internal failures map to INTERNAL_ERROR, an
unknown method maps to METHOD_NOT_FOUND, and the code values are bit-exact. -/
theorem c6_error_mapping (msg : String) :
    ((ToolError.notFound msg).toRouterError.toErrorData.code = INVALID_REQUEST
      ∧ (ResourceError.notFound msg).toRouterError.toErrorData.code = INVALID_REQUEST
      ∧ (PromptError.notFound msg).toRouterError.toErrorData.code = INVALID_REQUEST)
    ∧ ((ToolError.invalidParameters msg).toRouterError.toErrorData.code = INVALID_PARAMS
      ∧ (PromptError.invalidParameters msg).toRouterError.toErrorData.code = INVALID_PARAMS)
    ∧ ((ToolError.executionError msg).toRouterError.toErrorData.code = INTERNAL_ERROR
      ∧ (ToolError.schemaError msg).toRouterError.toErrorData.code = INTERNAL_ERROR
      ∧ (ResourceError.executionError msg).toRouterError.toErrorData.code = INTERNAL_ERROR
      ∧ (PromptError.internalError msg).toRouterError.toErrorData.code = INTERNAL_ERROR
      ∧ (RouterError.internal msg).toErrorData.code = INTERNAL_ERROR)
    ∧ (RouterError.methodNotFound msg).toErrorData.code = METHOD_NOT_FOUND
    ∧ (INVALID_REQUEST = -32600 ∧ METHOD_NOT_FOUND = -32601 ∧ INVALID_PARAMS = -32602
      ∧ INTERNAL_ERROR = -32603 ∧ PARSE_ERROR = -32700) :=
  ⟨⟨rfl, rfl, rfl⟩, ⟨rfl, rfl⟩, ⟨rfl, rfl, rfl, rfl, rfl⟩, rfl, rfl, rfl, rfl, rfl, rfl⟩

/-- Outcome of running a fallible Rust function: a panic, an `Err`, or an
`Ok` value. -/
inductive RustResult (α : Type) where
  | panics : RustResult α
  | errs (msg : String) : RustResult α
  | ok (v : α) : RustResult α

/-- Tolerance for the floating-point priority comparison (resource.rs
line 9). -/
def EPSILON : Rat := 1 / 1000000

/-- The resource annotation constructor `Annotations::for_resource`
(content.rs lines 28-42): asserts the priority lies in [0.0, 1.0] (a
violation panics), then builds annotations with that priority and timestamp
and no audience. -/
def Annotations.forResource (priority : Rat) (timestamp : String) :
    RustResult Annotations :=
  if 0 ≤ priority ∧ priority ≤ 1 then
    .ok { audience := none, priority := some priority, timestamp := some timestamp }
  else
    .panics

/-- The default mime type (resource.rs `default_mime_type`). -/
def defaultMimeType : String := "text"

/-- Mime-type coercion used by the resource constructors (resource.rs): only
"text" and "blob" are kept, anything else coerces to the default. -/
def normalizeMime : Option String → String
  | some t => if t = "text" ∨ t = "blob" then t else defaultMimeType
  | none => defaultMimeType

/-- The constructor `Resource::new` (resource.rs lines 58-93).  The `url`
crate is deferred into two explicit function parameters: `urlValid` decides
`Url::parse` success and `pathLastSegment` yields the last path segment.  The
priority is fixed at 0.0 and the timestamp is the `now` parameter. -/
def Resource.new (urlValid : String → Bool) (pathLastSegment : String → Option String)
    (uri : String) (mimeType : Option String) (name : Option String) (now : String) :
    RustResult Resource :=
  if !urlValid uri then .errs "Invalid URI"
  else
    let name := match name with
      | some n => n
      | none => (pathLastSegment uri).getD "unnamed"
    let mime := normalizeMime mimeType
    match Annotations.forResource 0 now with
    | .panics => .panics
    | .errs m => .errs m
    | .ok a =>
      .ok { uri := uri, name := name, description := none, mime_type := mime,
            annotations := some a }

/-- The constructor `Resource::with_uri` (resource.rs lines 97-120): URI
validation, mime coercion, and annotations built by
`Annotations::for_resource` with the given priority. -/
def Resource.withUri (urlValid : String → Bool) (uri name : String) (priority : Rat)
    (mimeType : Option String) (now : String) : RustResult Resource :=
  if !urlValid uri then .errs "Invalid URI"
  else
    let mime := normalizeMime mimeType
    match Annotations.forResource priority now with
    | .panics => .panics
    | .errs m => .errs m
    | .ok a =>
      .ok { uri := uri, name := name, description := none, mime_type := mime,
            annotations := some a }

/-- The setter `Resource::with_priority` (resource.rs lines 130-133): unwraps
the annotations (panicking when they are absent) and overwrites the priority
with no range check. -/
def Resource.withPriority (r : Resource) (priority : Rat) : RustResult Resource :=
  match r.annotations with
  | none => .panics
  | some a => .ok { r with annotations := some { a with priority := some priority } }

/-- The setter `Resource::update_timestamp` (resource.rs lines 124-126):
unwraps the annotations (panicking when they are absent) and overwrites the
timestamp. -/
def Resource.updateTimestamp (r : Resource) (now : String) : RustResult Resource :=
  match r.annotations with
  | none => .panics
  | some a => .ok { r with annotations := some { a with timestamp := some now } }

/-- The accessor `Resource::priority` (resource.rs lines 153-155). -/
def Resource.priority (r : Resource) : Option Rat :=
  r.annotations.bind fun a => a.priority

/-- The predicate `Resource::is_active` (resource.rs lines 143-149): the
priority is within EPSILON of 1.0. -/
def Resource.isActive (r : Resource) : Bool :=
  match r.priority with
  | some priority => decide (|priority - 1| < EPSILON)
  | none => false

/-- A concrete resource with annotations at priority 0. -/
def resourceP0 : Resource :=
  { uri := "str:///t.txt", name := "t.txt", description := none, mime_type := "text",
    annotations := some { audience := none, priority := some 0, timestamp := some "ts" } }

/-- C8 counterexample: `Resource::with_priority` performs no range check —
applying it with priority 2 succeeds and yields a Resource carrying priority
2, which lies outside [0.0, 1.0]. -/
theorem c8_counterexample :
    Resource.withPriority resourceP0 2 =
      .ok { uri := "str:///t.txt", name := "t.txt", description := none,
            mime_type := "text",
            annotations := some { audience := none, priority := some 2,
                                  timestamp := some "ts" } }
    ∧ ¬ ((0 : Rat) ≤ 2 ∧ (2 : Rat) ≤ 1) := by
  constructor
  · rfl
  · intro h
    exact absurd h.2 (by norm_num)

/-- C8 (amended): constructions that go through `Annotations::for_resource`
(`Resource::new` with its fixed priority 0.0, and `Resource::with_uri`)
reject out-of-range priorities by panicking, and `Resource::new` never
panics; but `Resource::with_priority` performs no range check and returns the
resource carrying whatever priority it was given. -/
theorem c8_priority_range (urlValid : String → Bool)
    (pls : String → Option String) (uri name now : String)
    (mt : Option String) (p : Rat) (r : Resource) (a : Annotations)
    (hp : p < 0 ∨ 1 < p) (hvalid : urlValid uri = true) (ha : r.annotations = some a) :
    Annotations.forResource p now = .panics
    ∧ Resource.withUri urlValid uri name p mt now = .panics
    ∧ Resource.new urlValid pls uri mt (some name) now ≠ RustResult.panics
    ∧ Resource.withPriority r p =
      .ok { r with annotations := some { a with priority := some p } }
    ∧ (Resource.withPriority r p ≠ RustResult.panics) := by
  have hnot : ¬ (0 ≤ p ∧ p ≤ 1) := by
    rcases hp with h | h
    · exact fun hc => absurd hc.1 (not_le.mpr h)
    · exact fun hc => absurd hc.2 (not_le.mpr h)
  refine ⟨?_, ?_, ?_, ?_, ?_⟩
  · simp [Annotations.forResource, hnot]
  · simp [Resource.withUri, hvalid, Annotations.forResource, hnot]
  · have h01 : (0 : Rat) ≤ 0 ∧ (0 : Rat) ≤ 1 := by norm_num
    simp [Resource.new, hvalid, Annotations.forResource, h01]
  · simp [Resource.withPriority, ha]
  · simp [Resource.withPriority, ha]

/-- C8 witness: at priority 2 the panicking and non-checking branches are
both exercised on concrete inputs. -/
theorem c8_priority_range_witness :
    ((2 : Rat) < 0 ∨ (1 : Rat) < 2)
    ∧ Resource.withUri (fun _ => true) "str:///t.txt" "t.txt" 2 none "ts" = .panics
    ∧ Resource.withPriority resourceP0 2 =
      .ok { resourceP0 with
            annotations := some { audience := none, priority := some 2,
                                  timestamp := some "ts" } } := by
  have h := c8_priority_range (fun _ => true) (fun _ => none) "str:///t.txt" "t.txt" "ts"
    none 2 resourceP0 { audience := none, priority := some 0, timestamp := some "ts" }
    (by norm_num) rfl rfl
  exact ⟨by norm_num, h.2.1, h.2.2.2.1⟩

/-- Serde deserialization of a `Role` (role.rs, lowercase renaming). -/
def roleFromJson : Json → Except String Role
  | .str s =>
    if s = "user" then .ok .user
    else if s = "assistant" then .ok .assistant
    else .error "unknown variant for Role"
  | _ => .error "invalid type: expected string Role"

/-- Serde deserialization of a sequence of roles. -/
def rolesFromJson : List Json → Except String (List Role)
  | [] => .ok []
  | j :: rest => do
    let r ← roleFromJson j
    let rs ← rolesFromJson rest
    return r :: rs

/-- Serde deserialization of `Annotations` (content.rs): all three fields
optional; the chrono datetime validation is deferred into the explicit
`dtValid` parameter. -/
def annotationsFromJson (dtValid : String → Bool) (j : Json) :
    Except String Annotations :=
  if !j.isObject then .error "invalid type: expected struct Annotations"
  else do
    let audience ← match j.getField "audience" with
      | none => Except.ok none
      | some .null => Except.ok none
      | some (.arr elems) => (rolesFromJson elems).map some
      | some _ => Except.error "invalid type: expected sequence audience"
    let priority ← match j.getField "priority" with
      | none => Except.ok none
      | some .null => Except.ok none
      | some (.num n) => Except.ok (some ((n : Rat)))
      | some _ => Except.error "invalid type: expected f32 priority"
    let timestamp ← match j.getField "timestamp" with
      | none => Except.ok none
      | some .null => Except.ok none
      | some (.str dt) =>
        if dtValid dt then Except.ok (some dt) else Except.error "invalid datetime"
      | some _ => Except.error "invalid type: expected datetime string"
    return { audience := audience, priority := priority, timestamp := timestamp }

/-- Serde deserialization of `Resource` (resource.rs, camelCase renaming):
uri and name required, description and annotations optional, mimeType
defaulting to "text" when the key is absent. -/
def resourceFromJson (dtValid : String → Bool) (j : Json) : Except String Resource :=
  if !j.isObject then .error "invalid type: expected struct Resource"
  else do
    let uri ← match j.getField "uri" with
      | some (.str s) => Except.ok s
      | some _ => Except.error "invalid type: expected string uri"
      | none => Except.error "missing field uri"
    let name ← match j.getField "name" with
      | some (.str s) => Except.ok s
      | some _ => Except.error "invalid type: expected string name"
      | none => Except.error "missing field name"
    let description ← decodeOptString (j.getField "description")
    let mime ← match j.getField "mimeType" with
      | none => Except.ok defaultMimeType
      | some (.str s) => Except.ok s
      | some _ => Except.error "invalid type: expected string mimeType"
    let annotations ← match j.getField "annotations" with
      | none => Except.ok none
      | some .null => Except.ok none
      | some aj => (annotationsFromJson dtValid aj).map some
    return { uri := uri, name := name, description := description, mime_type := mime,
             annotations := annotations }

/-- C10: for every Resource whose annotations field is None, both
`Resource::with_priority` and `Resource::update_timestamp` panic (they unwrap
the absent annotations) instead of returning an error or creating them. -/
theorem c10_absent_annotations_panic (r : Resource) (p : Rat) (now : String)
    (h : r.annotations = none) :
    Resource.withPriority r p = RustResult.panics
    ∧ Resource.updateTimestamp r now = RustResult.panics := by
  constructor <;> simp [Resource.withPriority, Resource.updateTimestamp, h]

/-- C10 witness: a Resource deserialized from JSON carrying no annotations
key has annotations None, and the two operations panic on it — the branch is
reachable at the public interface. -/
theorem c10_absent_annotations_panic_witness :
    resourceFromJson (fun _ => true)
        (.obj [("uri", .str "str:///x"), ("name", .str "x")]) =
      .ok { uri := "str:///x", name := "x", description := none, mime_type := "text",
            annotations := none }
    ∧ Resource.withPriority
        { uri := "str:///x", name := "x", description := none, mime_type := "text",
          annotations := none } (1 / 2) = RustResult.panics
    ∧ Resource.updateTimestamp
        { uri := "str:///x", name := "x", description := none, mime_type := "text",
          annotations := none } "ts" = RustResult.panics :=
  ⟨rfl,
    (c10_absent_annotations_panic _ (1 / 2) "ts" rfl).1,
    (c10_absent_annotations_panic _ (1 / 2) "ts" rfl).2⟩

/-- Client transport error (mcp-client transport/mod.rs `Error`); payloads
are modelled as their messages. -/
inductive ClientTransportError where
  | io (msg : String)
  | notConnected
  | channelClosed
  | serialization (msg : String)
  | unsupportedMessage
  | stdioProcessError (msg : String)
  | sseConnection (msg : String)
  | httpError (status : Nat) (message : String)

/-- State of a tokio oneshot reply slot: the receiver is still waiting, a
value has been sent, or the sender was dropped without sending. -/
inductive OneshotState where
  | waiting
  | sent (v : Except ClientTransportError JsonRpcMessage)
  | dropped

/-- The pending-request table (transport/mod.rs `PendingRequests`) together
with the slot store: `table` maps request ids to slot indices holding the
one-shot senders; `slots` holds each slot state. -/
structure PendingState where
  slots : Nat → OneshotState
  table : List (String × Nat)

/-- The operation `PendingRequests::respond` (transport/mod.rs
lines 129-133): remove the id from the table; when it was present, send the
response into its slot (a send into a slot that is no longer waiting is
dropped); an absent id does nothing. -/
def pendingRespond (w : PendingState) (id : String)
    (response : Except ClientTransportError JsonRpcMessage) : PendingState :=
  match w.table.lookup id with
  | none => w
  | some s =>
    { slots := fun t =>
        if t = s then
          match w.slots t with
          | .waiting => .sent response
          | st => st
        else w.slots t,
      table := w.table.filter fun kv => !(kv.1 == id) }

/-- The operation `PendingRequests::clear` (transport/mod.rs lines 136-138):
emptying the map drops every stored sender, so every slot still waiting in
the table becomes dropped. -/
def pendingClear (w : PendingState) : PendingState :=
  { slots := fun s =>
      if (w.table.map Prod.snd).contains s then
        match w.slots s with
        | .waiting => .dropped
        | st => st
      else w.slots s,
    table := [] }

/-- What a caller blocked in `send_message` (transport/mod.rs line 91)
observes from its slot: on a sent value the value itself, on a dropped sender
the receive error mapped to ChannelClosed; a waiting slot keeps the caller
suspended (`none`). -/
def awaitOutcome (st : OneshotState) :
    Option (Except ClientTransportError JsonRpcMessage) :=
  match st with
  | .waiting => none
  | .sent v => some v
  | .dropped => some (.error .channelClosed)

/-- C9: clearing the pending table delivers ChannelClosed to every caller
that was awaiting a slot stored in the table (none hangs, none receives a
value), and responding to an id not present in the table changes nothing —
the reply is dropped silently. -/
theorem c9_clear_fanout_and_silent_drop (w : PendingState) (id notPresent : String)
    (s : Nat) (resp : Except ClientTransportError JsonRpcMessage)
    (hmem : (id, s) ∈ w.table) (hw : w.slots s = .waiting)
    (hmiss : w.table.lookup notPresent = none) :
    awaitOutcome ((pendingClear w).slots s) = some (.error .channelClosed)
    ∧ pendingRespond w notPresent resp = w := by
  constructor
  · have hs : (w.table.map Prod.snd).contains s = true := by
      simp only [List.contains_iff_exists_mem_beq]
      exact ⟨s, List.mem_map_of_mem Prod.snd hmem, by simp⟩
    simp only [pendingClear, awaitOutcome]
    rw [hs]
    simp [hw]
  · simp [pendingRespond, hmiss]

/-- C9 witness: on a concrete table with one waiting caller, clear delivers
ChannelClosed to it and a respond for an absent id is a no-op. -/
theorem c9_clear_fanout_and_silent_drop_witness :
    ((("7", 0) ∈ ([("7", 0)] : List (String × Nat)))
      ∧ (fun _ => OneshotState.waiting : Nat → OneshotState) 0 = OneshotState.waiting
      ∧ ([("7", 0)] : List (String × Nat)).lookup "9" = none)
    ∧ awaitOutcome ((pendingClear ⟨fun _ => .waiting, [("7", 0)]⟩).slots 0) =
      some (.error .channelClosed)
    ∧ pendingRespond ⟨fun _ => .waiting, [("7", 0)]⟩ "9"
        (.error .channelClosed) = ⟨fun _ => .waiting, [("7", 0)]⟩ :=
  ⟨⟨by decide, rfl, by decide⟩,
    (c9_clear_fanout_and_silent_drop ⟨fun _ => .waiting, [("7", 0)]⟩ "7" "9" 0
      (.error .channelClosed) (by decide) rfl (by decide)).1,
    (c9_clear_fanout_and_silent_drop ⟨fun _ => .waiting, [("7", 0)]⟩ "7" "9" 0
      (.error .channelClosed) (by decide) rfl (by decide)).2⟩

end McpSpec
